import Mathlib

/-!
# libtorrent storage layer: fence, status codes and sentinels, discard backend, cpuid

A shallow embedding of `include/libtorrent/storage.hpp` (tag libtorrent-aio-stage1)
and `include/libtorrent/cpuid.hpp` (branch libtorrent_aio).

C++ `int` values are embedded as `Int`; none of the embedded functions does
arithmetic on them, so no wrap-around can occur. `std::vector<int>` is `List Int`.
-/

namespace libtorrent

/-! ## Failure modes -/

/-- The ways an embedded call can fail to return normally. -/
inductive failure
  /-- a `TORRENT_ASSERT` whose condition is false, in a build that checks assertions -/
  | assert_failed
  /-- `boost::bad_function_call`: an empty `boost::function` was invoked -/
  | bad_function_call
  deriving DecidableEq, Repr

/-- Modelled from the spec: the macro `TORRENT_ASSERT` is defined in `assert.hpp`,
which is not among the sources. The spec calls it "an assertion" whose violation is
"a fatal invariant violation, not a recoverable condition". Whether assertions are
compiled in is a build parameter, `asserts`; when they are not, the macro does nothing. -/
def TORRENT_ASSERT (asserts : Bool) (cond : Bool) : Except failure Unit :=
  if asserts && !cond then .error .assert_failed else .ok ()

/-! ## Closures

`boost::function0<void>` is either empty or holds a callable. A callable is
represented by its identity (`target`); what it does when called is given by
an interpretation `body` that is an input of every operation that calls one. -/

/-- Identity of a callable stored in a `boost::function0<void>`. -/
abbrev target := Nat

/-- The type `boost::function0<void>`: `none` is the empty function. -/
abbrev function0 := Option target

/-- The type `storage_mode_t` of `storage_defs.hpp`, as far as `storage.hpp` uses it
(`compact_allocation` compares against `storage_mode_compact`). -/
inductive storage_mode_t
  | storage_mode_allocate
  | storage_mode_sparse
  | storage_mode_compact
  deriving DecidableEq, Repr

/-- The fence and the slot table of `piece_manager`, as declared at storage.hpp
lines 520-548. -/
structure piece_manager where
  /-- when set, this storage is blocked for new async operations -/
  m_fence_fun : function0
  m_storage_mode : storage_mode_t
  /-- slots that haven't had any file storage allocated -/
  m_unallocated_slots : List Int
  /-- slots that have file storage, but isn't assigned to a piece -/
  m_free_slots : List Int
  /-- maps piece indices to slots -/
  m_piece_to_slot : List Int
  /-- maps slots to piece indices -/
  m_slot_to_piece : List Int
  deriving DecidableEq, Repr

/-- What calling a callable does to the piece_manager it is bound to. -/
abbrev closure_body := target → piece_manager → Except failure piece_manager

/-- A piece_manager together with the log of the closures that its own member
functions have invoked so far, oldest first. The log is ghost state. -/
structure execution where
  self : piece_manager
  calls : List target
  deriving DecidableEq, Repr

/-- `void raise_fence(boost::function0<void> const& f)`:
`TORRENT_ASSERT(!m_fence_fun); m_fence_fun = f;` -/
def piece_manager.raise_fence (asserts : Bool) (f : function0) (self : piece_manager) :
    Except failure piece_manager := do
  TORRENT_ASSERT asserts (!self.m_fence_fun.isSome)
  pure { self with m_fence_fun := f }

/-- `bool has_fence() const { return m_fence_fun; }` -/
def piece_manager.has_fence (self : piece_manager) : Bool :=
  self.m_fence_fun.isSome

/-- The call operator `f()` of `boost::function0<void>`: throws when `f` is empty,
otherwise runs the body of the stored callable; the invocation is logged. -/
def function0.call (body : closure_body) (f : function0) (e : execution) :
    Except failure execution :=
  match f with
  | none => .error .bad_function_call
  | some t =>
    match body t e.self with
    | .ok pm => .ok { self := pm, calls := e.calls ++ [t] }
    | .error err => .error err

/-- `void lower_fence()`:
`TORRENT_ASSERT(m_fence_fun); boost::function0<void> f; f.swap(m_fence_fun); f();` -/
def execution.lower_fence (asserts : Bool) (body : closure_body) (e : execution) :
    Except failure execution := do
  TORRENT_ASSERT asserts e.self.m_fence_fun.isSome
  -- f starts empty; the swap moves the stored closure into f and empties m_fence_fun
  let f : function0 := e.self.m_fence_fun
  let e1 : execution := { e with self := { e.self with m_fence_fun := none } }
  function0.call body f e1

/-- `raise_fence` as a step of an execution: it invokes nothing, so the log is kept. -/
def execution.raise_fence (asserts : Bool) (f : function0) (e : execution) :
    Except failure execution := do
  let pm ← e.self.raise_fence asserts f
  pure { e with self := pm }

/-- `has_fence` of the manager of an execution. -/
def execution.has_fence (e : execution) : Bool := e.self.has_fence

/-! ## Status codes and sentinels -/

/-- The enumeration `piece_manager::return_t` (storage.hpp lines 413-420):
return values from check_fastresume and check_files. -/
inductive return_t
  | no_error
  | fatal_disk_error
  | need_full_check
  | disk_check_aborted
  deriving DecidableEq, Repr

/-- The integer value of each enumerator of `return_t`, as written in the source. -/
def return_t.value : return_t → Int
  | .no_error => 0
  | .fatal_disk_error => -1
  | .need_full_check => -2
  | .disk_check_aborted => -3

/-- `enum { has_no_slot = -3 }`: the piece has no storage. -/
def has_no_slot : Int := -3

/-- `enum { unallocated = -1, ... }`: the slot is unallocated. -/
def unallocated : Int := -1

/-- `enum { ..., unassigned = -2 }`: the slot is allocated but not assigned to a piece. -/
def unassigned : Int := -2

/-- What an entry of `m_piece_to_slot` can be, from the comment on the member:
"maps piece indices to slots. If a piece doesn't have any storage, it is set to
has_no_slot". `n` is the number of slots. -/
def piece_to_slot_entry (n : Int) (e : Int) : Prop :=
  e = has_no_slot ∨ (0 ≤ e ∧ e < n)

/-- What an entry of `m_slot_to_piece` can be, from the comment on the member:
"maps slots to piece indices, if a slot doesn't have a piece it can either be
unassigned or unallocated". `n` is the number of pieces. -/
def slot_to_piece_entry (n : Int) (e : Int) : Prop :=
  e = unallocated ∨ e = unassigned ∨ (0 ≤ e ∧ e < n)

/-! ## Storage backends -/

/-- `virtual int sparse_end(int start) const { return start; }` of `storage_interface`. -/
def storage_interface.sparse_end (start : Int) : Int := start

/-- The class `disabled_storage`; its only data member is `m_piece_size`. -/
structure disabled_storage where
  m_piece_size : Int
  deriving DecidableEq, Repr

/-- What a member function of a backend leaves behind: its return value, the object
itself, the buffer or record passed by pointer or reference, and the `storage_error&`
argument. The type `storage_error` is declared outside the sources and is a parameter. -/
structure outcome (α β ε : Type) where
  ret : α
  self : disabled_storage
  data : β
  ec : ε

/-- `int read(char* buf, int slot, int offset, int size, storage_error& ec) { return size; }` -/
def disabled_storage.read {ε : Type} (self : disabled_storage) (buf : List Nat)
    (_slot _offset size : Int) (ec : ε) : outcome Int (List Nat) ε :=
  { ret := size, self := self, data := buf, ec := ec }

/-- `int write(char const* buf, int slot, int offset, int size, storage_error& ec) { return size; }` -/
def disabled_storage.write {ε : Type} (self : disabled_storage) (buf : List Nat)
    (_slot _offset size : Int) (ec : ε) : outcome Int (List Nat) ε :=
  { ret := size, self := self, data := buf, ec := ec }

/-- `disabled_storage` does not override `sparse_end`; the call resolves to the base. -/
def disabled_storage.sparse_end (_self : disabled_storage) (start : Int) : Int :=
  storage_interface.sparse_end start

/-- `bool verify_resume_data(lazy_entry const& rd, storage_error& error) { return false; }`.
The record type is declared outside the sources and is a parameter. -/
def disabled_storage.verify_resume_data {ρ ε : Type} (self : disabled_storage) (rd : ρ)
    (error : ε) : outcome Bool ρ ε :=
  { ret := false, self := self, data := rd, ec := error }

/-- `void write_resume_data(entry& rd, storage_error& ec) const {}` -/
def disabled_storage.write_resume_data {ρ ε : Type} (self : disabled_storage) (rd : ρ)
    (ec : ε) : outcome Unit ρ ε :=
  { ret := (), self := self, data := rd, ec := ec }

/-- `bool has_any_file(storage_error& ec) { return false; }` -/
def disabled_storage.has_any_file {ε : Type} (self : disabled_storage) (ec : ε) :
    outcome Bool Unit ε :=
  { ret := false, self := self, data := (), ec := ec }

/-- `void rename_file(int index, std::string const& new_filename, storage_error& ec) {}` -/
def disabled_storage.rename_file {ε : Type} (self : disabled_storage) (_index : Int)
    (_new_filename : String) (ec : ε) : outcome Unit Unit ε :=
  { ret := (), self := self, data := (), ec := ec }

/-- `void release_files(storage_error& ec) {}` -/
def disabled_storage.release_files {ε : Type} (self : disabled_storage) (ec : ε) :
    outcome Unit Unit ε :=
  { ret := (), self := self, data := (), ec := ec }

/-- `void delete_files(storage_error& ec) {}` -/
def disabled_storage.delete_files {ε : Type} (self : disabled_storage) (ec : ε) :
    outcome Unit Unit ε :=
  { ret := (), self := self, data := (), ec := ec }

/-- `void initialize(bool allocate_files, storage_error& ec) {}` -/
def disabled_storage.initialize {ε : Type} (self : disabled_storage) (_allocate_files : Bool)
    (ec : ε) : outcome Unit Unit ε :=
  { ret := (), self := self, data := (), ec := ec }

/-- `void move_storage(std::string const& save_path, storage_error& ec) {}` -/
def disabled_storage.move_storage {ε : Type} (self : disabled_storage) (_save_path : String)
    (ec : ε) : outcome Unit Unit ε :=
  { ret := (), self := self, data := (), ec := ec }

/-- `void move_slot(int src_slot, int dst_slot, storage_error& ec) {}` -/
def disabled_storage.move_slot {ε : Type} (self : disabled_storage)
    (_src_slot _dst_slot : Int) (ec : ε) : outcome Unit Unit ε :=
  { ret := (), self := self, data := (), ec := ec }

/-- `void swap_slots(int slot1, int slot2, storage_error& ec) {}` -/
def disabled_storage.swap_slots {ε : Type} (self : disabled_storage) (_slot1 _slot2 : Int)
    (ec : ε) : outcome Unit Unit ε :=
  { ret := (), self := self, data := (), ec := ec }

/-- `void swap_slots3(int slot1, int slot2, int slot3, storage_error& ec) {}` -/
def disabled_storage.swap_slots3 {ε : Type} (self : disabled_storage)
    (_slot1 _slot2 _slot3 : Int) (ec : ε) : outcome Unit Unit ε :=
  { ret := (), self := self, data := (), ec := ec }

/-! ## cpuid -/

/-- `memset(s, c, n)` on a region of bytes that starts at `s`: the first `n` bytes
become `(unsigned char)c`, the rest keep their value. -/
def memset (s : List Nat) (c : Nat) (n : Nat) : List Nat :=
  List.replicate (min n s.length) (c % 256) ++ s.drop n

/-- Which branch of the body of `cpuid` the preprocessor selects. -/
inductive cpuid_branch
  /-- `TORRENT_HAS_SSE && defined _MSC_VER` -/
  | msvc
  /-- `TORRENT_HAS_SSE && defined __GNUC__` -/
  | gnuc
  /-- the `#else` branch: "for non-x86 and non-amd64, just return zeroes" -/
  | fallback
  deriving DecidableEq, Repr

/-- `inline void cpuid(unsigned int info[4], int type)`. The array the caller passes is
the byte region `info` (four `unsigned int` of four bytes each). In the parameter list
`unsigned int info[4]` declares a pointer, so in the `#else` branch `sizeof(info)` is the
size of a pointer on the target, `sizeof_ptr`. The compiler intrinsics of the two SSE
branches are the parameter `intrinsic`. -/
def cpuid (branch : cpuid_branch) (sizeof_ptr : Nat) (intrinsic : Int → List Nat → List Nat)
    (info : List Nat) (type : Int) : List Nat :=
  match branch with
  | .msvc => intrinsic type info
  | .gnuc => intrinsic type info
  | .fallback => memset info 0 sizeof_ptr

/-- The bytes of an array of `unsigned int`, least significant byte first. -/
def unsigned_bytes : List Nat → List Nat
  | [] => []
  | w :: ws => (w % 256) :: (w / 256 % 256) :: (w / 65536 % 256) :: (w / 16777216 % 256)
      :: unsigned_bytes ws

/-- The element `info[i]` of an array of `unsigned int` stored in the byte region `mem`,
least significant byte first. -/
def unsigned_at (mem : List Nat) (i : Nat) : Nat :=
  mem.getD (4 * i) 0 + 256 * mem.getD (4 * i + 1) 0 + 65536 * mem.getD (4 * i + 2) 0
    + 16777216 * mem.getD (4 * i + 3) 0

/-! ## Concrete inputs used to instantiate the theorems -/

/-- Closures that return without touching the piece_manager. -/
def idle_body : closure_body := fun _ pm => .ok pm

/-- A piece_manager over two pieces in compact mode whose fence holds `f`. -/
def manager_with_fence (f : function0) : piece_manager :=
  { m_fence_fun := f, m_storage_mode := .storage_mode_compact
    m_unallocated_slots := [0, 1], m_free_slots := []
    m_piece_to_slot := [-3, -3], m_slot_to_piece := [-1, -1] }

/-- Closures of which number 7 calls `raise_fence` with closure 8 on the piece_manager
it is bound to, in a build that checks assertions; every other one returns at once. -/
def reraising_body : closure_body := fun t pm =>
  if t = 7 then pm.raise_fence true (some 8) else .ok pm

/-! ## Claims -/

/-- C1: when the fence is raised with closure `f`, `lower_fence()` is exactly one run of
`f` on the manager with the fence cleared, logged as one invocation of `f`: whenever
that run returns, `lower_fence()` returns and `f` has been invoked once more than
before, whatever `f` does. Provided `f` never changes the fence, the fence is then
lowered (`has_fence()` is false), a further `lower_fence()` fails without invoking
anything and a later `raise_fence` invokes nothing. Calling `lower_fence()` when no
fence is raised violates its assertion (and calls an empty function when assertions are
compiled out). -/
theorem C1_lower_fence_invokes_once (asserts : Bool) (body : closure_body) (e : execution)
    (f : target) (hf : e.self.m_fence_fun = some f) :
    (e.lower_fence asserts body
        = (body f { e.self with m_fence_fun := none }).map
            (fun pm => ({ self := pm, calls := e.calls ++ [f] } : execution)))
    ∧ (∀ pm : piece_manager, body f { e.self with m_fence_fun := none } = .ok pm →
          e.lower_fence asserts body = .ok { self := pm, calls := e.calls ++ [f] }
          ∧ (e.calls ++ [f]).count f = e.calls.count f + 1
          ∧ ((∀ pm0 pm1 : piece_manager, body f pm0 = .ok pm1 →
                pm1.m_fence_fun = pm0.m_fence_fun) →
              execution.has_fence { self := pm, calls := e.calls ++ [f] } = false
              ∧ (∀ a : Bool, ∃ err,
                  execution.lower_fence a body { self := pm, calls := e.calls ++ [f] }
                    = .error err)
              ∧ (∀ (a : Bool) (g : function0) (e2 : execution),
                  execution.raise_fence a g { self := pm, calls := e.calls ++ [f] } = .ok e2 →
                    e2.calls = e.calls ++ [f])))
    ∧ (∀ e0 : execution, e0.has_fence = false →
        e0.lower_fence true body = .error .assert_failed
        ∧ e0.lower_fence false body = .error .bad_function_call) := by
  refine ⟨?_, ?_, ?_⟩
  · simp only [execution.lower_fence, TORRENT_ASSERT, hf, function0.call]
    cases hb : body f { e.self with m_fence_fun := none } <;>
      cases asserts <;> simp [bind, Except.bind, Except.map]
  · intro pm hb
    refine ⟨?_, ?_, ?_⟩
    · simp only [execution.lower_fence, TORRENT_ASSERT, hf, function0.call, hb]
      cases asserts <;> simp [bind, Except.bind]
    · simp
    · intro hquiet
      have hnone : pm.m_fence_fun = none := hquiet _ _ hb
      refine ⟨?_, ?_, ?_⟩
      · simp [execution.has_fence, piece_manager.has_fence, hnone]
      · intro a
        cases a
        · exact ⟨.bad_function_call, by
            simp [execution.lower_fence, TORRENT_ASSERT, hnone, function0.call, bind,
              Except.bind]⟩
        · exact ⟨.assert_failed, by
            simp [execution.lower_fence, TORRENT_ASSERT, hnone, bind, Except.bind]⟩
      · intro a g e2 h2
        simp only [execution.raise_fence, piece_manager.raise_fence, TORRENT_ASSERT] at h2
        split at h2
        · simp [bind, Except.bind] at h2
        · simp only [bind, Except.bind, pure, Except.pure, Except.ok.injEq] at h2
          rw [← h2]
  · intro e0 h0
    have hnone : e0.self.m_fence_fun = none := by
      simpa [execution.has_fence, piece_manager.has_fence] using h0
    constructor
    · simp [execution.lower_fence, TORRENT_ASSERT, hnone, bind, Except.bind]
    · simp [execution.lower_fence, TORRENT_ASSERT, hnone, function0.call, bind, Except.bind]

/-- Witness for C1: the fence holds closure 7. With a body that leaves the manager alone
the call returns with the fence lowered; with a body that raises the fence with closure
8 the call still returns after one invocation of closure 7. -/
theorem C1_lower_fence_invokes_once_witness :
    (manager_with_fence (some 7)).m_fence_fun = some 7
    ∧ execution.lower_fence true idle_body { self := manager_with_fence (some 7), calls := [] }
        = .ok { self := manager_with_fence none, calls := [7] }
    ∧ execution.has_fence { self := manager_with_fence none, calls := [7] } = false
    ∧ execution.lower_fence true reraising_body
          { self := manager_with_fence (some 7), calls := [] }
        = .ok { self := manager_with_fence (some 8), calls := [7] } :=
  ⟨rfl,
   ((C1_lower_fence_invokes_once true idle_body
      { self := manager_with_fence (some 7), calls := [] } 7 rfl).2.1
      (manager_with_fence none) rfl).1,
   (((C1_lower_fence_invokes_once true idle_body
      { self := manager_with_fence (some 7), calls := [] } 7 rfl).2.1
      (manager_with_fence none) rfl).2.2 (fun _ _ h => by cases h; rfl)).1,
   ((C1_lower_fence_invokes_once true reraising_body
      { self := manager_with_fence (some 7), calls := [] } 7 rfl).2.1
      (manager_with_fence (some 8)) rfl).1⟩

/-- C2: for a non-empty closure `f`, `raise_fence(f)` on a piece_manager whose fence is
not raised returns normally, stores `f` as the pending closure and changes nothing else,
invokes nothing (so `f` has been invoked as often as before), leaves `has_fence()` true,
and the next `lower_fence()` is exactly one run of `f`. The fence is a single
`function0`, so it never holds more than one closure. -/
theorem C2_raise_fence_stores_closure (asserts : Bool) (body : closure_body) (e : execution)
    (f : target) (h : e.has_fence = false) :
    ∃ e1 : execution, e.raise_fence asserts (some f) = .ok e1
      ∧ e1.self = { e.self with m_fence_fun := some f }
      ∧ e1.has_fence = true
      ∧ e1.calls = e.calls ∧ e1.calls.count f = e.calls.count f
      ∧ e1.lower_fence asserts body
          = (body f { e.self with m_fence_fun := none }).map
              (fun pm => ({ self := pm, calls := e.calls ++ [f] } : execution)) := by
  have hnone : e.self.m_fence_fun = none := by
    simpa [execution.has_fence, piece_manager.has_fence] using h
  refine ⟨{ e with self := { e.self with m_fence_fun := some f } }, ?_, rfl, rfl, rfl, rfl, ?_⟩
  · simp [execution.raise_fence, piece_manager.raise_fence, TORRENT_ASSERT, hnone, bind,
      Except.bind, pure, Except.pure]
  · simp only [execution.lower_fence, TORRENT_ASSERT, function0.call]
    cases hb : body f { e.self with m_fence_fun := none } <;>
      cases asserts <;> simp [bind, Except.bind, Except.map, hb]

/-- Witness for C2: closure 7 is raised on a manager without a fence. -/
theorem C2_raise_fence_stores_closure_witness :
    execution.has_fence { self := manager_with_fence none, calls := [] } = false
    ∧ ∃ e1 : execution,
        execution.raise_fence true (some 7) { self := manager_with_fence none, calls := [] }
          = .ok e1
        ∧ e1.self = manager_with_fence (some 7) ∧ e1.has_fence = true ∧ e1.calls = [] :=
  ⟨rfl, by
    obtain ⟨e1, h1, h2, h3, h4, -, -⟩ := C2_raise_fence_stores_closure true idle_body
      { self := manager_with_fence none, calls := [] } 7 rfl
    exact ⟨e1, h1, h2, h3, h4⟩⟩

/-- C3, counterexample: closure 1 then closure 2 are raised with no `lower_fence` in
between. With assertions the second `raise_fence` fails. Without them, the first
`lower_fence` runs closure 2 only, and a second `lower_fence` finds nothing to run:
closure 1 is never run, so the closures are not run in submission order once each. -/
theorem C3_second_raise_not_queued :
    (do
      let e1 ← execution.raise_fence true (some 1) { self := manager_with_fence none, calls := [] }
      e1.raise_fence true (some 2)) = .error .assert_failed
    ∧ (do
      let e1 ← execution.raise_fence false (some 1) { self := manager_with_fence none, calls := [] }
      let e2 ← e1.raise_fence false (some 2)
      e2.lower_fence false idle_body)
        = .ok { self := manager_with_fence none, calls := [2] }
    ∧ execution.lower_fence false idle_body { self := manager_with_fence none, calls := [2] }
        = .error .bad_function_call
    ∧ (∀ (a : Bool) (e3 : execution),
        (do
          let e1 ← execution.raise_fence a (some 1)
            { self := manager_with_fence none, calls := [] }
          let e2 ← e1.raise_fence a (some 2)
          e2.lower_fence a idle_body) = .ok e3 → e3.calls ≠ [1] ∧ e3.calls ≠ [1, 2]) := by
  refine ⟨rfl, rfl, rfl, ?_⟩
  intro a e3 h
  cases a
  · have h2 : (Except.ok { self := manager_with_fence none, calls := [2] }
        : Except failure execution) = .ok e3 := h
    cases h2
    exact ⟨by decide, by decide⟩
  · have h2 : (Except.error .assert_failed : Except failure execution) = .ok e3 := h
    cases h2

/-- C3, amended: the fence holds one closure and nothing is queued. On a manager whose
fence is not raised, `raise_fence(f)` returns without invoking anything; a second
`raise_fence(g)` before any `lower_fence` violates the assertion of `raise_fence`. With
assertions compiled out it returns without invoking anything and `g` replaces `f`: the
next `lower_fence()` is exactly one run of `g`, and `f` is not run. -/
theorem C3_second_raise_violates_assertion (asserts : Bool) (body : closure_body)
    (e : execution) (f g : target) (h : e.has_fence = false) :
    ∃ e1 : execution, e.raise_fence asserts (some f) = .ok e1
      ∧ e1.calls = e.calls
      ∧ e1.raise_fence true (some g) = .error .assert_failed
      ∧ ∃ e2 : execution, e1.raise_fence false (some g) = .ok e2
        ∧ e2.calls = e.calls
        ∧ e2.self = { e.self with m_fence_fun := some g }
        ∧ e2.lower_fence false body
            = (body g { e.self with m_fence_fun := none }).map
                (fun pm => ({ self := pm, calls := e.calls ++ [g] } : execution)) := by
  have hnone : e.self.m_fence_fun = none := by
    simpa [execution.has_fence, piece_manager.has_fence] using h
  refine ⟨{ e with self := { e.self with m_fence_fun := some f } }, ?_, rfl, ?_,
    { e with self := { e.self with m_fence_fun := some g } }, ?_, rfl, rfl, ?_⟩
  · simp [execution.raise_fence, piece_manager.raise_fence, TORRENT_ASSERT, hnone, bind,
      Except.bind, pure, Except.pure]
  · simp [execution.raise_fence, piece_manager.raise_fence, TORRENT_ASSERT, bind, Except.bind]
  · simp [execution.raise_fence, piece_manager.raise_fence, TORRENT_ASSERT, bind,
      Except.bind, pure, Except.pure]
  · simp only [execution.lower_fence, TORRENT_ASSERT, function0.call]
    cases hb : body g { e.self with m_fence_fun := none } <;>
      simp [bind, Except.bind, Except.map, hb]

/-- Witness for the amended C3: closures 1 and 2 on a manager without a fence. -/
theorem C3_second_raise_violates_assertion_witness :
    execution.has_fence { self := manager_with_fence none, calls := [] } = false
    ∧ ∃ e1 : execution,
        execution.raise_fence true (some 1) { self := manager_with_fence none, calls := [] }
          = .ok e1
        ∧ e1.calls = []
        ∧ e1.raise_fence true (some 2) = .error .assert_failed :=
  ⟨rfl, by
    obtain ⟨e1, h1, h2, h3, -⟩ := C3_second_raise_violates_assertion true idle_body
      { self := manager_with_fence none, calls := [] } 1 2 rfl
    exact ⟨e1, h1, h2, h3⟩⟩

/-- C5: on the discard backend `read` and `write` return exactly `size`, leave `ec`, the
buffer and the backend unchanged, and the value returned does not depend on the slot,
the offset or the contents of the buffer. -/
theorem C5_disabled_read_write_return_size {ε : Type} (self : disabled_storage)
    (buf : List Nat) (slot offset size : Int) (ec : ε) :
    (self.read buf slot offset size ec).ret = size
    ∧ (self.read buf slot offset size ec).ec = ec
    ∧ (self.read buf slot offset size ec).data = buf
    ∧ (self.read buf slot offset size ec).self = self
    ∧ (self.write buf slot offset size ec).ret = size
    ∧ (self.write buf slot offset size ec).ec = ec
    ∧ (self.write buf slot offset size ec).self = self
    ∧ (∀ (buf2 : List Nat) (slot2 offset2 : Int),
        (self.read buf2 slot2 offset2 size ec).ret = (self.read buf slot offset size ec).ret
        ∧ (self.write buf2 slot2 offset2 size ec).ret
            = (self.write buf slot offset size ec).ret) :=
  ⟨rfl, rfl, rfl, rfl, rfl, rfl, rfl, fun _ _ _ => ⟨rfl, rfl⟩⟩

/-- C6, counterexample: on a discard backend, a resume record that has just been passed
to `write_resume_data` is rejected by `verify_resume_data`, the backend being unchanged
in between. The record is a list of keys with integer values, the error an error code. -/
theorem C6_disabled_resume_rejected :
    ¬ ((disabled_storage.verify_resume_data
          (disabled_storage.write_resume_data ⟨16384⟩ [("allocation", (1 : Int))] (0 : Int)).self
          (disabled_storage.write_resume_data ⟨16384⟩ [("allocation", (1 : Int))] (0 : Int)).data
          (disabled_storage.write_resume_data ⟨16384⟩ [("allocation", (1 : Int))] (0 : Int)).ec).ret
        = true) := by
  simp [disabled_storage.verify_resume_data]

/-- C6, amended: on the discard backend `write_resume_data` writes nothing (the record, the
error and the backend are unchanged) and `verify_resume_data` returns false for every
record, with no error set and the backend unchanged; a record written by the backend is
therefore never accepted by it. -/
theorem C6_disabled_resume_never_verifies {ρ ε : Type} (self : disabled_storage) (rd : ρ)
    (ec : ε) :
    (self.write_resume_data rd ec).data = rd
    ∧ (self.write_resume_data rd ec).ec = ec
    ∧ (self.write_resume_data rd ec).self = self
    ∧ (self.verify_resume_data rd ec).ret = false
    ∧ (self.verify_resume_data rd ec).ec = ec
    ∧ (self.verify_resume_data rd ec).self = self
    ∧ ((self.write_resume_data rd ec).self.verify_resume_data
          (self.write_resume_data rd ec).data (self.write_resume_data rd ec).ec).ret = false :=
  ⟨rfl, rfl, rfl, rfl, rfl, rfl, rfl⟩

/-- C7: `sparse_end` of the base `storage_interface`, which `disabled_storage` inherits,
is the identity; its result is at or after `start`, and no slot at or after `start` lies
before it, so a scanner that advances to it skips no slot. -/
theorem C7_sparse_end_identity (self : disabled_storage) (start : Int) :
    storage_interface.sparse_end start = start
    ∧ self.sparse_end start = start
    ∧ start ≤ self.sparse_end start
    ∧ (∀ s : Int, start ≤ s → self.sparse_end start ≤ s) :=
  ⟨rfl, rfl, le_refl _, fun _ h => h⟩

/-- C8: the values of `return_t` are pairwise distinct, `no_error` is 0, the three
failure codes are negative, and a code is a failure exactly when its value is below 0. -/
theorem C8_return_codes :
    (∀ a b : return_t, a.value = b.value → a = b)
    ∧ return_t.no_error.value = 0
    ∧ return_t.fatal_disk_error.value < 0
    ∧ return_t.need_full_check.value < 0
    ∧ return_t.disk_check_aborted.value < 0
    ∧ (∀ r : return_t, r ≠ .no_error ↔ r.value < 0) := by
  refine ⟨?_, rfl, by decide, by decide, by decide, ?_⟩
  · intro a b h
    cases a <;> cases b <;> first | rfl | (simp [return_t.value] at h)
  · intro r
    cases r <;> simp [return_t.value]

theorem memset_getD_after (s : List Nat) (c n i : Nat) (h : n ≤ i) :
    (memset s c n).getD i 0 = s.getD i 0 := by
  unfold memset
  simp only [List.getD_eq_getElem?_getD]
  by_cases hn : n ≤ s.length
  · rw [List.getElem?_append_right (by simp; omega)]
    simp only [List.length_replicate, Nat.min_eq_left hn, List.getElem?_drop]
    congr 2
    omega
  · have h1 : s.length ≤ i := by omega
    rw [List.getElem?_eq_none (by simp; omega), List.getElem?_eq_none h1]

/-- The fallback branch of `cpuid` leaves `info[2]` and `info[3]` as they were whenever a
pointer is at most eight bytes wide. -/
theorem cpuid_fallback_keeps_tail (sizeof_ptr : Nat) (intrinsic : Int → List Nat → List Nat)
    (info : List Nat) (type : Int) (h : sizeof_ptr ≤ 8) :
    unsigned_at (cpuid .fallback sizeof_ptr intrinsic info type) 2 = unsigned_at info 2
    ∧ unsigned_at (cpuid .fallback sizeof_ptr intrinsic info type) 3 = unsigned_at info 3 := by
  simp only [cpuid, unsigned_at]
  constructor <;>
    rw [memset_getD_after _ _ _ _ (by omega), memset_getD_after _ _ _ _ (by omega),
      memset_getD_after _ _ _ _ (by omega), memset_getD_after _ _ _ _ (by omega)]

/-- C9, the code at the failing input: in the fallback branch, with `info = {1, 2, 3, 4}`,
`cpuid` leaves `{0, 0, 3, 4}` where a pointer is eight bytes and `{0, 2, 3, 4}` where it
is four: `sizeof(info)` is the size of a pointer, not of the array. -/
theorem C9_cpuid_fallback_partial_clear :
    (List.range 4).map (unsigned_at (cpuid .fallback 8 (fun _ m => m)
        (unsigned_bytes [1, 2, 3, 4]) 0)) = [0, 0, 3, 4]
    ∧ (List.range 4).map (unsigned_at (cpuid .fallback 4 (fun _ m => m)
        (unsigned_bytes [1, 2, 3, 4]) 0)) = [0, 2, 3, 4]
    ∧ (List.range 4).map (unsigned_at (unsigned_bytes [1, 2, 3, 4])) = [1, 2, 3, 4] := by
  refine ⟨by decide, by decide, by decide⟩

/-- C10: the sentinels `has_no_slot` (-3), `unallocated` (-1) and `unassigned` (-2) are
pairwise distinct and negative; no index `i` with `0 <= i < num_pieces` equals one of
them; and an entry of `m_piece_to_slot` or of `m_slot_to_piece` is a real index exactly
when it is `>= 0`. -/
theorem C10_sentinels_do_not_collide :
    has_no_slot = -3 ∧ unallocated = -1 ∧ unassigned = -2
    ∧ has_no_slot ≠ unallocated ∧ has_no_slot ≠ unassigned ∧ unallocated ≠ unassigned
    ∧ has_no_slot < 0 ∧ unallocated < 0 ∧ unassigned < 0
    ∧ (∀ num_pieces i : Int, 0 ≤ i → i < num_pieces →
        i ≠ has_no_slot ∧ i ≠ unallocated ∧ i ≠ unassigned)
    ∧ (∀ n e : Int, piece_to_slot_entry n e →
        (((0 ≤ e ∧ e < n) ↔ 0 ≤ e) ∧ (e ≠ has_no_slot ↔ 0 ≤ e)))
    ∧ (∀ n e : Int, slot_to_piece_entry n e →
        (((0 ≤ e ∧ e < n) ↔ 0 ≤ e) ∧ ((e ≠ unallocated ∧ e ≠ unassigned) ↔ 0 ≤ e))) := by
  refine ⟨rfl, rfl, rfl, by decide, by decide, by decide, by decide, by decide, by decide,
    ?_, ?_, ?_⟩
  · intro n i h0 _
    simp only [has_no_slot, unallocated, unassigned]
    omega
  · intro n e h
    simp only [piece_to_slot_entry, has_no_slot] at h ⊢
    omega
  · intro n e h
    simp only [slot_to_piece_entry, unallocated, unassigned] at h ⊢
    omega

/-- C11: `lower_fence()` clears the fence before it invokes the stored closure `f`: the
call is one run of `f` on a manager for which `has_fence()` is false. A closure that
calls `raise_fence(g)` there does not violate the assertion of `raise_fence`, also in a
build that checks assertions, and `lower_fence()` then returns with the fence raised
with `g`: `has_fence()` is true, and the next `lower_fence()` is one run of `g`. On the
manager as it was before the call, fence still raised, the same `raise_fence(g)` would
violate the assertion. -/
theorem C11_fence_cleared_before_call (asserts : Bool) (body : closure_body) (e : execution)
    (f g : target) (hf : e.self.m_fence_fun = some f)
    (hbody : ∀ pm : piece_manager, body f pm = pm.raise_fence asserts (some g)) :
    piece_manager.has_fence { e.self with m_fence_fun := none } = false
    ∧ e.lower_fence asserts body
        = function0.call body (some f)
            { self := { e.self with m_fence_fun := none }, calls := e.calls }
    ∧ body f { e.self with m_fence_fun := none } = .ok { e.self with m_fence_fun := some g }
    ∧ e.lower_fence asserts body
        = .ok { self := { e.self with m_fence_fun := some g }, calls := e.calls ++ [f] }
    ∧ execution.has_fence
        { self := { e.self with m_fence_fun := some g }, calls := e.calls ++ [f] } = true
    ∧ execution.lower_fence asserts body
          { self := { e.self with m_fence_fun := some g }, calls := e.calls ++ [f] }
        = (body g { e.self with m_fence_fun := none }).map
            (fun pm => ({ self := pm, calls := e.calls ++ [f] ++ [g] } : execution))
    ∧ e.self.raise_fence true (some g) = .error .assert_failed := by
  have hrun : body f { e.self with m_fence_fun := none }
      = .ok { e.self with m_fence_fun := some g } := by
    rw [hbody]
    cases asserts <;>
      simp [piece_manager.raise_fence, TORRENT_ASSERT, bind, Except.bind, pure, Except.pure]
  refine ⟨rfl, ?_, hrun, ?_, rfl, ?_, ?_⟩
  rotate_right
  · simp [piece_manager.raise_fence, TORRENT_ASSERT, hf, bind, Except.bind]
  · cases asserts <;>
      simp [execution.lower_fence, TORRENT_ASSERT, hf, bind, Except.bind]
  · simp only [execution.lower_fence, TORRENT_ASSERT, hf, function0.call, hrun]
    cases asserts <;> simp [bind, Except.bind]
  · simp only [execution.lower_fence, TORRENT_ASSERT, function0.call]
    cases hb : body g { e.self with m_fence_fun := none } <;>
      cases asserts <;> simp [bind, Except.bind, Except.map, hb]

/-- Witness for C11: the fence holds closure 7, which raises the fence with closure 8. -/
theorem C11_fence_cleared_before_call_witness :
    (manager_with_fence (some 7)).m_fence_fun = some 7
    ∧ (∀ pm : piece_manager, reraising_body 7 pm = pm.raise_fence true (some 8))
    ∧ execution.lower_fence true reraising_body
          { self := manager_with_fence (some 7), calls := [] }
        = .ok { self := manager_with_fence (some 8), calls := [7] }
    ∧ execution.has_fence { self := manager_with_fence (some 8), calls := [7] } = true :=
  ⟨rfl, fun _ => rfl,
   (C11_fence_cleared_before_call true reraising_body
      { self := manager_with_fence (some 7), calls := [] } 7 8 rfl (fun _ => rfl)).2.2.2.1,
   (C11_fence_cleared_before_call true reraising_body
      { self := manager_with_fence (some 7), calls := [] } 7 8 rfl (fun _ => rfl)).2.2.2.2.1⟩

/-- C12: on the discard backend `initialize`, `move_slot`, `swap_slots`, `swap_slots3`,
`rename_file`, `release_files`, `delete_files` and `move_storage` are no-ops: for all
arguments each leaves the `storage_error` argument and the backend (`m_piece_size`)
unchanged; `has_any_file` returns false, also leaving both unchanged. -/
theorem C12_disabled_storage_noops {ε : Type} (self : disabled_storage) (ec : ε)
    (allocate_files : Bool) (a b c index : Int) (name path : String) :
    (( disabled_storage.initialize self allocate_files ec).ec = ec
      ∧ ( disabled_storage.initialize self allocate_files ec).self = self)
    ∧ ((self.move_slot a b ec).ec = ec ∧ (self.move_slot a b ec).self = self)
    ∧ ((self.swap_slots a b ec).ec = ec ∧ (self.swap_slots a b ec).self = self)
    ∧ ((self.swap_slots3 a b c ec).ec = ec ∧ (self.swap_slots3 a b c ec).self = self)
    ∧ ((self.rename_file index name ec).ec = ec ∧ (self.rename_file index name ec).self = self)
    ∧ ((self.release_files ec).ec = ec ∧ (self.release_files ec).self = self)
    ∧ ((self.delete_files ec).ec = ec ∧ (self.delete_files ec).self = self)
    ∧ ((self.move_storage path ec).ec = ec ∧ (self.move_storage path ec).self = self)
    ∧ ((self.has_any_file ec).ret = false ∧ (self.has_any_file ec).ec = ec
      ∧ (self.has_any_file ec).self = self)
    ∧ ((self.move_slot a a ec).self.m_piece_size = self.m_piece_size
      ∧ (self.swap_slots a a ec).self.m_piece_size = self.m_piece_size
      ∧ (self.swap_slots3 a a a ec).self.m_piece_size = self.m_piece_size) :=
  ⟨⟨rfl, rfl⟩, ⟨rfl, rfl⟩, ⟨rfl, rfl⟩, ⟨rfl, rfl⟩, ⟨rfl, rfl⟩, ⟨rfl, rfl⟩, ⟨rfl, rfl⟩,
   ⟨rfl, rfl⟩, ⟨rfl, rfl, rfl⟩, ⟨rfl, rfl, rfl⟩⟩

end libtorrent
